import Mathlib

/-!
Shallow embedding of the transit arrival-time estimator (src/estimator.py).

Modelling conventions:
* A dataframe row (one stop visit) is a `StopVisit`; the loaded dataset is a
  `List StopVisit`.  Per the load stage (`load_and_preprocess_csv` sorts by
  `['trip_id', 'arrival_time']`) and the spec's ordering invariant, each trip's
  visits appear in the list in ascending `arrival_time` order, so the
  estimator's own re-sort (line 143) is the identity on well-formed input and
  is not re-modelled.
* Timestamps are integers (seconds since a Monday-aligned epoch offset is not
  assumed; the epoch 0 is a Thursday, as for POSIX time, so pandas
  `dayofweek` with Monday = 0 is `(t / 86400 + 3) mod 7`).
* Float arithmetic is modelled exactly over `ℚ`.  The only genuinely
  irrational operation in the source is the square root inside
  `numpy`/pandas `std()`; no claim depends on the value of that square root,
  so every definition and theorem is parametric in a function `sq : ℚ → ℚ`
  standing for the float square root applied to the sample variance.
  `ℚ` has no NaN; a travel-time value that pandas would hold as NaN is an
  `Option ℚ` that is `none`, and definedness is checked explicitly.
* Python `int()` truncates toward zero; `truncQ` models it.
-/

namespace Transit

/-- One row of the input table: a stop visit of one trip. -/
structure StopVisit where
  trip_id : String
  bus_stop : String
  direction : String
  arrival_time : ℤ
  departure_time : ℤ
  dwell_time : Option ℚ
deriving Repr, DecidableEq

/-- A dataframe row after the travel-time column has been added
(`df['travel_time'] = ...`, line 145): the visit plus its optional travel
time to the next stop of the same trip. -/
structure SegRow where
  visit : StopVisit
  travel_time : Option ℚ
deriving Repr, DecidableEq

/-- A `(direction, bus_stop)` statistical profile: the `pd.Series` returned by
`calculate_estimates` (lines 104-110 and 132-138). -/
structure Profile where
  mean_travel_time : Option ℚ
  std_travel_time : Option ℚ
  mean_dwell_time : Option ℚ
  hourly_factors : List (ℤ × ℚ)
  daily_factors : List (ℤ × ℚ)
deriving Repr, DecidableEq

/-- The empty profile returned when a group has insufficient data
(lines 104-110). -/
def emptyProfile : Profile := ⟨none, none, none, [], []⟩

/-- The user-reportable failure classes of `estimate_arrival_time`
(spec section 7; each corresponds to a `return None` with a message). -/
inductive PredictError where
  | UnknownTripId
  | UnknownStop
  | NoHistoricalData
  | InsufficientData
  | InvalidPrediction
deriving Repr, DecidableEq

/-- The prediction record returned on success (lines 215-221). -/
structure Prediction where
  predicted_travel_time : ℚ
  confidence_interval : ℚ
  predicted_arrival : ℤ
  lower_bound : ℤ
  upper_bound : ℤ
deriving Repr, DecidableEq

/-- Python `int()` on a float: truncation toward zero. -/
def truncQ (q : ℚ) : ℤ := if 0 ≤ q then ⌊q⌋ else ⌈q⌉

/-- pandas `.dt.hour` on an epoch-seconds timestamp. -/
def hourOf (t : ℤ) : ℤ := (t.ediv 3600).emod 24

/-- pandas `.dt.dayofweek` (Monday = 0) on an epoch-seconds timestamp;
day 0 of the epoch is a Thursday (= 3). -/
def dayOfWeek (t : ℤ) : ℤ := (t.ediv 86400 + 3).emod 7

/-- Arithmetic mean of a list of rationals (pandas `.mean()` over a
non-empty, NaN-free column; on `[]` it gives `0/0 = 0` and is only used
guarded). -/
def qmean (l : List ℚ) : ℚ := l.sum / l.length

/-- pandas `.std()` with `ddof = 1`: `none` (NaN) when fewer than two
samples, else the sample variance; the float square root is applied by the
caller through the `sq` parameter. -/
def sampleVar (l : List ℚ) : Option ℚ :=
  if l.length < 2 then none
  else some ((l.map (fun x => (x - qmean l) ^ 2)).sum / ((l.length : ℚ) - 1))

/-- pandas `.mean()` over a column that may contain NaN: NaN values are
skipped; all-NaN (or empty) gives NaN. -/
def optMean (l : List (Option ℚ)) : Option ℚ :=
  if (l.filterMap id).isEmpty then none else some (qmean (l.filterMap id))

/-- The distinct bucket keys (hours, or weekdays) occurring in a group's
defined-travel-time rows: the index of `data.groupby(key)['travel_time']`. -/
def bucketKeys (key : StopVisit → ℤ) (data : List (StopVisit × ℚ)) : List ℤ :=
  (data.map (fun r => key r.1)).dedup

/-- Mean travel time of one bucket: `data.groupby(key)['travel_time'].mean()`
evaluated at bucket `k`. -/
def bucketMean (key : StopVisit → ℤ) (data : List (StopVisit × ℚ)) (k : ℤ) : ℚ :=
  qmean ((data.filter (fun r => decide (key r.1 = k))).map (fun r => r.2))

/-- Lines 121-124 / 127-130: per-bucket mean travel times, then each divided
by the mean of the per-bucket means, returned as a finite key-to-factor map
(`.to_dict()`). -/
def factorMap (key : StopVisit → ℤ) (data : List (StopVisit × ℚ)) : List (ℤ × ℚ) :=
  (bucketKeys key data).map
    (fun k => (k, bucketMean key data k /
      qmean ((bucketKeys key data).map (bucketMean key data))))

/-- `calculate_estimates` (lines 99-138) on one `(direction, bus_stop)` group
of rows.  The guard is on the total row count of the group (defined or not)
and on all travel times being undefined; the statistics are computed over the
rows that survive `dropna(subset=['travel_time'])`. -/
def calculate_estimates (sq : ℚ → ℚ) (rows : List SegRow) : Profile :=
  if rows.length < 2 ∨ ∀ r ∈ rows, r.travel_time = none then emptyProfile
  else
    { mean_travel_time :=
        some (qmean ((rows.filterMap
          (fun r => r.travel_time.map (fun t => (r.visit, t)))).map (fun r => r.2)))
      std_travel_time :=
        (sampleVar ((rows.filterMap
          (fun r => r.travel_time.map (fun t => (r.visit, t)))).map (fun r => r.2))).map sq
      mean_dwell_time :=
        optMean ((rows.filterMap
          (fun r => r.travel_time.map (fun t => (r.visit, t)))).map (fun r => r.1.dwell_time))
      hourly_factors :=
        factorMap (fun v => hourOf v.arrival_time)
          (rows.filterMap (fun r => r.travel_time.map (fun t => (r.visit, t))))
      daily_factors :=
        factorMap (fun v => dayOfWeek v.arrival_time)
          (rows.filterMap (fun r => r.travel_time.map (fun t => (r.visit, t)))) }

/-- The rows of one trip, in dataset order (`df[df['trip_id'] == tid]`);
ascending in `arrival_time` for well-formed input. -/
def tripRows (df : List StopVisit) (tid : String) : List StopVisit :=
  df.filter (fun v => decide (v.trip_id = tid))

/-- The distinct trip identifiers of the dataset. -/
def tripIds (df : List StopVisit) : List String :=
  (df.map (fun v => v.trip_id)).dedup

/-- Lines 143-145: `groupby('trip_id')['arrival_time'].shift(-1)` followed by
the travel-time subtraction, restricted to one trip's chronologically ordered
visits: every visit is paired with the arrival time of the next visit of the
same trip; the trip's last visit gets no travel time. -/
def assignTravelTimes : List StopVisit → List SegRow
  | [] => []
  | v :: rest =>
    match rest with
    | [] => [⟨v, none⟩]
    | w :: _ =>
      ⟨v, some ((w.arrival_time - v.departure_time : ℤ) : ℚ)⟩ :: assignTravelTimes rest

/-- The whole dataframe after the travel-time column is added: the rows of
each trip with their travel times. -/
def segRows (df : List StopVisit) : List SegRow :=
  (tripIds df).flatMap (fun tid => assignTravelTimes (tripRows df tid))

/-- One group of `df.groupby(['direction', 'bus_stop'])` (line 149). -/
def partitionRows (df : List StopVisit) (d s : String) : List SegRow :=
  (segRows df).filter
    (fun r => decide (r.visit.direction = d) && decide (r.visit.bus_stop = s))

/-- `estimates.index` (line 150): the group keys, one per `(direction,
bus_stop)` pair occurring among the rows. -/
def profileKeys (df : List StopVisit) : List (String × String) :=
  ((segRows df).map (fun r => (r.visit.direction, r.visit.bus_stop))).dedup

/-- `estimates.loc[(d, s)]`: the statistical profile of one group. -/
def profileFor (sq : ℚ → ℚ) (df : List StopVisit) (d s : String) : Profile :=
  calculate_estimates sq (partitionRows df d s)

/-- Line 202-203: multiply by the hour-of-day factor when the departure hour
is a key of the hourly factor map, else leave unchanged. -/
def applyHourly (stats : Profile) (t : ℤ) (m : ℚ) : ℚ :=
  match stats.hourly_factors.lookup (hourOf t) with
  | some f => m * f
  | none => m

/-- Line 204-205: multiply by the day-of-week factor when the departure
weekday is a key of the daily factor map, else leave unchanged. -/
def applyDaily (stats : Profile) (t : ℤ) (m : ℚ) : ℚ :=
  match stats.daily_factors.lookup (dayOfWeek t) with
  | some f => m * f
  | none => m

/-- Lines 196-205: the factor-adjusted base prediction. -/
def applyFactors (stats : Profile) (t : ℤ) (m : ℚ) : ℚ :=
  applyDaily stats t (applyHourly stats t m)

/-- Line 213: `1.96 × std` when the standard deviation is defined, else the
20% fallback band around the adjusted base. -/
def confidenceOf (stats : Profile) (b : ℚ) : ℚ :=
  match stats.std_travel_time with
  | some s => (1.96 : ℚ) * s
  | none => b * (0.2 : ℚ)

/-- Lines 215-221: the returned prediction record; each timestamp adds an
`int()`-truncated number of seconds to the reference departure time. -/
def mkPrediction (stats : Profile) (current : ℤ) (b : ℚ) : Prediction :=
  { predicted_travel_time := b
    confidence_interval := confidenceOf stats b
    predicted_arrival := current + truncQ b
    lower_bound := current + truncQ (b - confidenceOf stats b)
    upper_bound := current + truncQ (b + confidenceOf stats b) }

/-- `estimate_arrival_time` (lines 141-221) on the query path where both a
trip and a target stop are supplied.  The no-target path (line 223) returns
the full profile table, modelled by `profileFor`/`profileKeys`.  The
`trip_data.empty` re-check of line 168 is unreachable once the trip id passed
the membership test of line 154; it is mapped to `UnknownTripId` like the
membership failure it shadows. -/
def estimate_arrival_time (sq : ℚ → ℚ) (df : List StopVisit) (tid stop : String) :
    Except PredictError Prediction :=
  if tid ∈ df.map (fun v => v.trip_id) then
    if stop ∈ df.map (fun v => v.bus_stop) then
      match (tripRows df tid).getLast? with
      | none => .error .UnknownTripId
      | some last_known =>
        if (last_known.direction, stop) ∈ profileKeys df then
          match (profileFor sq df last_known.direction stop).mean_travel_time with
          | none => .error .InsufficientData
          | some m =>
            if applyFactors (profileFor sq df last_known.direction stop)
                last_known.departure_time m ≤ 0 then
              .error .InvalidPrediction
            else
              .ok (mkPrediction (profileFor sq df last_known.direction stop)
                last_known.departure_time
                (applyFactors (profileFor sq df last_known.direction stop)
                  last_known.departure_time m))
        else .error .NoHistoricalData
    else .error .UnknownStop
  else .error .UnknownTripId

/-!
Concrete datasets used by counterexample and witness theorems.

`dfC1`: trips T1 (stops A then B), T2 (stops B then C), both direction "N",
and a single-visit trip T3 at stop D, direction "S".  The `("N", "B")` group
then holds two rows — T1's final visit at B (undefined travel time) and T2's
visit at B with travel time `1300 - 1010 = 290` — i.e. two rows but only one
defined travel time.

`dfNeg`: trips T1 and T2, both direction "N", both starting at stop B; T2's
departure from B is after the next stop's arrival, so its travel time is
negative (`3900 - 4200 = -300`) while T1's is `300 - 0 = 300`.  The
`("N", "B")` group then holds defined travel times `[300, -300]`, in hour
buckets 0 and 1.
-/

/-- Trip T1 visit at stop A. -/
def vA1 : StopVisit := ⟨"T1", "A", "N", 0, 10, some 10⟩
/-- Trip T1 visit at stop B (final visit of T1). -/
def vB1 : StopVisit := ⟨"T1", "B", "N", 300, 310, some 10⟩
/-- Trip T2 visit at stop B. -/
def vB2 : StopVisit := ⟨"T2", "B", "N", 1000, 1010, some 10⟩
/-- Trip T2 visit at stop C (final visit of T2). -/
def vC2 : StopVisit := ⟨"T2", "C", "N", 1300, 1310, some 10⟩
/-- Trip T3 single visit at stop D, direction "S". -/
def vD3 : StopVisit := ⟨"T3", "D", "S", 5000, 5010, none⟩

/-- Dataset with a `("N", "B")` group of two rows, one defined travel time. -/
def dfC1 : List StopVisit := [vA1, vB1, vB2, vC2, vD3]

/-- Trip T1 visit at stop B (positive travel time 300, hour 0). -/
def nB1 : StopVisit := ⟨"T1", "B", "N", 0, 0, some 5⟩
/-- Trip T1 visit at stop X. -/
def nX1 : StopVisit := ⟨"T1", "X", "N", 300, 310, some 5⟩
/-- Trip T2 visit at stop B (negative travel time -300, hour 1). -/
def nB2 : StopVisit := ⟨"T2", "B", "N", 3600, 4200, some 5⟩
/-- Trip T2 visit at stop X. -/
def nX2 : StopVisit := ⟨"T2", "X", "N", 3900, 3910, some 5⟩

/-- Dataset whose `("N", "B")` group has defined travel times `[300, -300]`. -/
def dfNeg : List StopVisit := [nB1, nX1, nB2, nX2]

/-!
Helper lemmas about the embedding, shared by the claim theorems below.
-/

/-- Travel-time assignment keeps the visits of a trip unchanged and in
order. -/
theorem assign_map_visit (vs : List StopVisit) :
    (assignTravelTimes vs).map (fun r => r.visit) = vs := by
  induction vs with
  | nil => rfl
  | cons v rest ih =>
    cases rest with
    | nil => rfl
    | cons w rest2 => simp only [assignTravelTimes, List.map_cons] at ih ⊢; rw [ih]

/-- An element of a trip's last row is a dataset row of that trip. -/
theorem tripRows_getLast_mem {df : List StopVisit} {tid : String} {last : StopVisit}
    (h : (tripRows df tid).getLast? = some last) :
    last ∈ df ∧ last.trip_id = tid := by
  have hmem : last ∈ tripRows df tid := by
    obtain ⟨l2, hl2⟩ := List.getLast?_eq_some_iff.mp h
    rw [hl2]; exact List.mem_append_right l2 (List.mem_singleton.mpr rfl)
  rw [tripRows, List.mem_filter] at hmem
  exact ⟨hmem.1, by simpa using hmem.2⟩

/-- A trip id occurring in the dataset has a nonempty row list. -/
theorem tripRows_ne_nil {df : List StopVisit} {tid : String}
    (h1 : tid ∈ df.map (fun v => v.trip_id)) : tripRows df tid ≠ [] := by
  obtain ⟨v, hv, rfl⟩ := List.mem_map.mp h1
  intro hcon
  have hmem : v ∈ tripRows df v.trip_id := by
    rw [tripRows, List.mem_filter]; exact ⟨hv, by simp⟩
  rw [hcon] at hmem
  exact (List.not_mem_nil v) hmem

/-- A trip id occurring in the dataset has a last row. -/
theorem tripRows_getLast_exists {df : List StopVisit} {tid : String}
    (h1 : tid ∈ df.map (fun v => v.trip_id)) :
    ∃ last, (tripRows df tid).getLast? = some last := by
  have hne := tripRows_ne_nil h1
  obtain ⟨a, ha⟩ := Option.isSome_iff_exists.mp (List.getLast?_isSome.mpr hne)
  exact ⟨a, ha⟩

/-- A trip with a last row occurs in the dataset's trip-id column. -/
theorem mem_trip_of_getLast {df : List StopVisit} {tid : String} {last : StopVisit}
    (h : (tripRows df tid).getLast? = some last) :
    tid ∈ df.map (fun v => v.trip_id) := by
  obtain ⟨hmem, htid⟩ := tripRows_getLast_mem h
  exact List.mem_map.mpr ⟨last, hmem, htid⟩

/-- Complete case analysis of `estimate_arrival_time`: exactly one of the six
outcomes occurs, each together with the conditions that produce it, in the
order the source tests them. -/
theorem est_chara (sq : ℚ → ℚ) (df : List StopVisit) (tid stop : String) :
    (tid ∉ df.map (fun v => v.trip_id) ∧
      estimate_arrival_time sq df tid stop = .error .UnknownTripId)
    ∨ (tid ∈ df.map (fun v => v.trip_id) ∧ stop ∉ df.map (fun v => v.bus_stop) ∧
      estimate_arrival_time sq df tid stop = .error .UnknownStop)
    ∨ (∃ last, (tripRows df tid).getLast? = some last ∧
        stop ∈ df.map (fun v => v.bus_stop) ∧
        (((last.direction, stop) ∉ profileKeys df ∧
            estimate_arrival_time sq df tid stop = .error .NoHistoricalData)
         ∨ ((last.direction, stop) ∈ profileKeys df ∧
            (profileFor sq df last.direction stop).mean_travel_time = none ∧
            estimate_arrival_time sq df tid stop = .error .InsufficientData)
         ∨ (∃ m, (last.direction, stop) ∈ profileKeys df ∧
            (profileFor sq df last.direction stop).mean_travel_time = some m ∧
            applyFactors (profileFor sq df last.direction stop) last.departure_time m ≤ 0 ∧
            estimate_arrival_time sq df tid stop = .error .InvalidPrediction)
         ∨ (∃ m, (last.direction, stop) ∈ profileKeys df ∧
            (profileFor sq df last.direction stop).mean_travel_time = some m ∧
            0 < applyFactors (profileFor sq df last.direction stop) last.departure_time m ∧
            estimate_arrival_time sq df tid stop =
              .ok (mkPrediction (profileFor sq df last.direction stop) last.departure_time
                (applyFactors (profileFor sq df last.direction stop)
                  last.departure_time m))))) := by
  by_cases h1 : tid ∈ df.map (fun v => v.trip_id)
  · by_cases h2 : stop ∈ df.map (fun v => v.bus_stop)
    · obtain ⟨last, hl⟩ := tripRows_getLast_exists h1
      refine Or.inr (Or.inr ⟨last, hl, h2, ?_⟩)
      by_cases h3 : (last.direction, stop) ∈ profileKeys df
      · cases hm : (profileFor sq df last.direction stop).mean_travel_time with
        | none =>
          exact Or.inr (Or.inl ⟨h3, rfl,
            by simp [estimate_arrival_time, h1, h2, hl, h3, hm]⟩)
        | some m =>
          by_cases h6 : applyFactors (profileFor sq df last.direction stop)
              last.departure_time m ≤ 0
          · exact Or.inr (Or.inr (Or.inl ⟨m, h3, rfl, h6,
              by simp [estimate_arrival_time, h1, h2, hl, h3, hm, h6]⟩))
          · exact Or.inr (Or.inr (Or.inr ⟨m, h3, rfl, lt_of_not_le h6,
              by simp [estimate_arrival_time, h1, h2, hl, h3, hm, h6]⟩))
      · exact Or.inl ⟨h3, by simp [estimate_arrival_time, h1, h2, hl, h3]⟩
    · exact Or.inr (Or.inl ⟨h1, h2, by simp [estimate_arrival_time, h1, h2]⟩)
  · exact Or.inl ⟨h1, by simp [estimate_arrival_time, h1]⟩

/-- Inversion of a successful prediction: it comes from the last row of the
queried trip, a defined group mean, and a positive factor-adjusted base. -/
theorem est_ok_inv {sq : ℚ → ℚ} {df : List StopVisit} {tid stop : String}
    {p : Prediction} (h : estimate_arrival_time sq df tid stop = .ok p) :
    ∃ last m, (tripRows df tid).getLast? = some last ∧
      (profileFor sq df last.direction stop).mean_travel_time = some m ∧
      0 < applyFactors (profileFor sq df last.direction stop) last.departure_time m ∧
      p = mkPrediction (profileFor sq df last.direction stop) last.departure_time
        (applyFactors (profileFor sq df last.direction stop) last.departure_time m) := by
  rcases est_chara sq df tid stop with ⟨_, he⟩ | ⟨_, _, he⟩ |
    ⟨last, hl, _, ⟨_, he⟩ | ⟨_, _, he⟩ | ⟨m, _, _, _, he⟩ | ⟨m, _, hm, hpos, he⟩⟩
  · rw [he] at h; exact absurd h (by simp)
  · rw [he] at h; exact absurd h (by simp)
  · rw [he] at h; exact absurd h (by simp)
  · rw [he] at h; exact absurd h (by simp)
  · rw [he] at h; exact absurd h (by simp)
  · rw [he] at h
    exact ⟨last, m, hl, hm, hpos, (Except.ok.injEq _ _ ▸ h).symm⟩

/-- Zip characterization of travel-time assignment on a nonempty trip: every
visit paired with its immediate successor gets the successor's arrival minus
its own departure; the last visit gets no travel time. -/
theorem assign_eq_zip (vs : List StopVisit) (h : vs ≠ []) :
    assignTravelTimes vs =
      (vs.zip vs.tail).map
        (fun p => ⟨p.1, some ((p.2.arrival_time - p.1.departure_time : ℤ) : ℚ)⟩)
      ++ [⟨vs.getLast h, none⟩] := by
  induction vs with
  | nil => exact absurd rfl h
  | cons v rest ih =>
    cases rest with
    | nil => simp [assignTravelTimes]
    | cons w rest2 =>
      have ih2 := ih (List.cons_ne_nil w rest2)
      simp only [assignTravelTimes, List.tail_cons, List.zip_cons_cons, List.map_cons,
        List.cons_append] at ih2 ⊢
      rw [ih2, List.getLast_cons (List.cons_ne_nil w rest2)]

/-- Appending a row with an undefined travel time to a group that already
passes the data guard leaves the computed profile unchanged. -/
theorem calc_append_none (sq : ℚ → ℚ) (rows : List SegRow) (v : StopVisit)
    (hlen : 2 ≤ rows.length) (hdef : ∃ r ∈ rows, r.travel_time ≠ none) :
    calculate_estimates sq (rows ++ [⟨v, none⟩]) = calculate_estimates sq rows := by
  obtain ⟨r0, hr0, hne⟩ := hdef
  have hg1 : ¬(rows.length < 2 ∨ ∀ r ∈ rows, r.travel_time = none) := by
    push_neg
    refine ⟨by omega, r0, hr0, hne⟩
  have hg2 : ¬((rows ++ [SegRow.mk v none]).length < 2 ∨
      ∀ r ∈ rows ++ [SegRow.mk v none], r.travel_time = none) := by
    push_neg
    constructor
    · simp only [List.length_append, List.length_cons, List.length_nil]
      omega
    · refine ⟨r0, ?_, hne⟩
      simp [hr0]
  rw [calculate_estimates, calculate_estimates, if_neg hg2, if_neg hg1]
  simp [List.filterMap_append]

/-- The group mean is undefined exactly when the row-count/all-undefined
guard fires. -/
theorem mean_none_iff (sq : ℚ → ℚ) (rows : List SegRow) :
    (calculate_estimates sq rows).mean_travel_time = none ↔
      (rows.length < 2 ∨ ∀ r ∈ rows, r.travel_time = none) := by
  by_cases hg : rows.length < 2 ∨ ∀ r ∈ rows, r.travel_time = none
  · simp [calculate_estimates, hg, emptyProfile]
  · simp [calculate_estimates, hg]

/-- The profile is the empty profile exactly when the guard fires. -/
theorem calc_empty_iff (sq : ℚ → ℚ) (rows : List SegRow) :
    calculate_estimates sq rows = emptyProfile ↔
      (rows.length < 2 ∨ ∀ r ∈ rows, r.travel_time = none) := by
  constructor
  · intro h
    have hmean := mean_none_iff sq rows
    rw [h] at hmean
    simpa [emptyProfile] using hmean
  · intro hg
    simp [calculate_estimates, hg]

/-- Truncation toward zero is monotone. -/
theorem truncQ_mono {x y : ℚ} (h : x ≤ y) : truncQ x ≤ truncQ y := by
  unfold truncQ
  by_cases hx : 0 ≤ x
  · rw [if_pos hx, if_pos (le_trans hx h)]
    exact Int.floor_le_floor h
  · by_cases hy : 0 ≤ y
    · rw [if_neg hx, if_pos hy]
      refine le_trans (Int.ceil_le.mpr ?_) (Int.floor_nonneg.mpr hy)
      exact_mod_cast le_of_not_le hx
    · rw [if_neg hx, if_neg hy]
      exact Int.ceil_le_ceil h

/-- Dividing every mapped list element by a constant divides the sum. -/
theorem sum_map_divQ {α : Type} (g : α → ℚ) (l : List α) (c : ℚ) :
    (l.map (fun k => g k / c)).sum = (l.map g).sum / c := by
  induction l with
  | nil => simp
  | cons a l2 ih => simp [ih, add_div]

/-- Dividing every mapped list element by a constant divides the mean. -/
theorem qmean_map_divQ {α : Type} (g : α → ℚ) (l : List α) (c : ℚ) :
    qmean (l.map (fun k => g k / c)) = qmean (l.map g) / c := by
  rw [qmean, qmean, sum_map_divQ, List.length_map, List.length_map]
  ring

/-- Projecting the travel times out of the visit-and-travel-time pairs kept
by `dropna` gives exactly the defined travel-time values of the group. -/
theorem pairs_snd (rows : List SegRow) :
    (rows.filterMap (fun r => r.travel_time.map (fun t => (r.visit, t)))).map
      (fun r => r.2) = rows.filterMap (fun r => r.travel_time) := by
  induction rows with
  | nil => rfl
  | cons r rest ih =>
    cases ht : r.travel_time with
    | none => simp [List.filterMap_cons, ht, ih]
    | some t => simp [List.filterMap_cons, ht, ih]

/-- Every row of the travel-time dataframe is a visit of the dataset. -/
theorem segRows_visit_mem {df : List StopVisit} {r : SegRow}
    (h : r ∈ segRows df) : r.visit ∈ df := by
  rw [segRows, List.mem_flatMap] at h
  obtain ⟨tid, _, hr⟩ := h
  have hv : r.visit ∈ (assignTravelTimes (tripRows df tid)).map (fun x => x.visit) :=
    List.mem_map.mpr ⟨r, hr, rfl⟩
  rw [assign_map_visit] at hv
  exact List.mem_of_mem_filter hv

/-- Every visit of the dataset occurs as a row of the travel-time
dataframe. -/
theorem mem_segRows_of_visit {df : List StopVisit} {v : StopVisit}
    (h : v ∈ df) : ∃ r ∈ segRows df, r.visit = v := by
  have htid : v.trip_id ∈ tripIds df :=
    List.mem_dedup.mpr (List.mem_map.mpr ⟨v, h, rfl⟩)
  have hvrow : v ∈ tripRows df v.trip_id := by
    rw [tripRows, List.mem_filter]
    exact ⟨h, by simp⟩
  rw [← assign_map_visit (tripRows df v.trip_id)] at hvrow
  obtain ⟨r, hr, hrv⟩ := List.mem_map.mp hvrow
  refine ⟨r, ?_, hrv⟩
  rw [segRows, List.mem_flatMap]
  exact ⟨v.trip_id, htid, hr⟩

/-- The profile table has a key exactly for the (direction, stop) pairs that
occur together in some visit. -/
theorem mem_profileKeys_iff (df : List StopVisit) (d s : String) :
    (d, s) ∈ profileKeys df ↔ ∃ v ∈ df, v.direction = d ∧ v.bus_stop = s := by
  rw [profileKeys, List.mem_dedup, List.mem_map]
  constructor
  · rintro ⟨r, hr, heq⟩
    obtain ⟨hd, hs⟩ := Prod.mk.injEq .. ▸ heq
    exact ⟨r.visit, segRows_visit_mem hr, hd, hs⟩
  · rintro ⟨v, hv, hd, hs⟩
    obtain ⟨r, hr, hrv⟩ := mem_segRows_of_visit hv
    exact ⟨r, hr, by rw [hrv, hd, hs]⟩

/-- Inversion of a `NoHistoricalData` failure: it can only come from the
profile-key membership test. -/
theorem est_nohist_inv {sq : ℚ → ℚ} {df : List StopVisit} {tid stop : String}
    (h : estimate_arrival_time sq df tid stop = .error .NoHistoricalData) :
    ∃ last, (tripRows df tid).getLast? = some last ∧
      (last.direction, stop) ∉ profileKeys df := by
  rcases est_chara sq df tid stop with ⟨_, he⟩ | ⟨_, _, he⟩ |
    ⟨last, hl, _, ⟨h3, he⟩ | ⟨_, _, he⟩ | ⟨m, _, _, _, he⟩ | ⟨m, _, _, _, he⟩⟩
  · rw [he] at h; simp at h
  · rw [he] at h; simp at h
  · exact ⟨last, hl, h3⟩
  · rw [he] at h; simp at h
  · rw [he] at h; simp at h
  · rw [he] at h; simp at h

/-- Introduction rule for a successful prediction. -/
theorem est_ok_intro {sq : ℚ → ℚ} {df : List StopVisit} {tid stop : String}
    {last : StopVisit} {m : ℚ}
    (h2 : stop ∈ df.map (fun v => v.bus_stop))
    (hl : (tripRows df tid).getLast? = some last)
    (h3 : (last.direction, stop) ∈ profileKeys df)
    (hm : (profileFor sq df last.direction stop).mean_travel_time = some m)
    (hpos : ¬ applyFactors (profileFor sq df last.direction stop) last.departure_time m ≤ 0) :
    estimate_arrival_time sq df tid stop =
      .ok (mkPrediction (profileFor sq df last.direction stop) last.departure_time
        (applyFactors (profileFor sq df last.direction stop) last.departure_time m)) := by
  have h1 := mem_trip_of_getLast hl
  simp [estimate_arrival_time, h1, h2, hl, h3, hm, hpos]

/-- The factor application written with neutral default 1 for absent keys. -/
theorem applyFactors_eq_getD (stats : Profile) (t : ℤ) (m : ℚ) :
    applyFactors stats t m =
      m * ((stats.hourly_factors.lookup (hourOf t)).getD 1)
        * ((stats.daily_factors.lookup (dayOfWeek t)).getD 1) := by
  rw [applyFactors, applyDaily, applyHourly]
  cases stats.hourly_factors.lookup (hourOf t) with
  | none =>
    cases stats.daily_factors.lookup (dayOfWeek t) with
    | none => simp
    | some f => simp
  | some g =>
    cases stats.daily_factors.lookup (dayOfWeek t) with
    | none => simp
    | some f => simp

/-!
Evaluation of the pipeline on the concrete datasets.
-/

/-- The `("N", "B")` group of `dfC1`: two rows, one defined travel time. -/
theorem ev_partition_C1 : partitionRows dfC1 "N" "B" =
    [⟨vB1, none⟩, ⟨vB2, some 290⟩] := by decide

/-- The `("N", "B")` profile of `dfC1`: defined mean from a single sample,
undefined standard deviation, neutral factors. -/
theorem ev_profile_C1 : profileFor id dfC1 "N" "B" =
    ⟨some 290, none, some 10, [(0, 1)], [(3, 1)]⟩ := by
  rw [profileFor, ev_partition_C1, calculate_estimates, if_neg (by decide)]
  norm_num [sampleVar, optMean, qmean, factorMap, bucketKeys, bucketMean,
    hourOf, dayOfWeek, vB1, vB2, List.dedup, List.pwFilter, List.filterMap_cons]

/-- Factor application on the concrete `("N", "B")` profile of `dfC1`. -/
theorem ev_applyFactors_C1 :
    applyFactors ⟨some 290, none, some 10, [(0, 1)], [(3, 1)]⟩ 310 290 = 290 := by
  rw [applyFactors, applyHourly, applyDaily]
  norm_num [List.lookup, show hourOf 310 = 0 from by decide,
    show dayOfWeek 310 = 3 from by decide]

/-- The full prediction of `dfC1` for trip T1 to stop B. -/
theorem ev_est_C1 : estimate_arrival_time id dfC1 "T1" "B" =
    .ok ⟨290, 58, 600, 542, 658⟩ := by
  have hl : (tripRows dfC1 "T1").getLast? = some vB1 := by decide
  have hm : (profileFor id dfC1 vB1.direction "B").mean_travel_time = some 290 := by
    have h := ev_profile_C1
    rw [show vB1.direction = "N" from rfl, h]
  have hpos : ¬ applyFactors (profileFor id dfC1 vB1.direction "B")
      vB1.departure_time 290 ≤ 0 := by
    rw [show vB1.direction = "N" from rfl, show vB1.departure_time = 310 from rfl,
      ev_profile_C1, ev_applyFactors_C1]
    norm_num
  rw [est_ok_intro (by decide) hl (by decide) hm hpos,
    show vB1.direction = "N" from rfl, show vB1.departure_time = 310 from rfl,
    ev_profile_C1, ev_applyFactors_C1]
  norm_num [mkPrediction, confidenceOf, truncQ, Prediction.mk.injEq]

/-- The `("N", "B")` group of `dfNeg`: two defined travel times, one of them
negative. -/
theorem ev_partition_Neg : partitionRows dfNeg "N" "B" =
    [⟨nB1, some 300⟩, ⟨nB2, some (-300)⟩] := by decide

/-- The `("N", "B")` profile of `dfNeg`: the negative travel time is included
in every statistic, driving the mean (and hence all factors) to zero. -/
theorem ev_profile_Neg : profileFor id dfNeg "N" "B" =
    ⟨some 0, some 180000, some 5, [(0, 0), (1, 0)], [(3, 0)]⟩ := by
  rw [profileFor, ev_partition_Neg, calculate_estimates, if_neg (by decide)]
  norm_num [sampleVar, optMean, qmean, factorMap, bucketKeys, bucketMean,
    hourOf, dayOfWeek, nB1, nB2, List.dedup, List.pwFilter, List.filterMap_cons]

/-- The prediction `dfC1` yields for trip T1 to stop B. -/
def predC1 : Prediction := ⟨290, 58, 600, 542, 658⟩

/-!
Claim theorems.
-/

/-- C2 (confirmed): for every successful prediction, the predicted travel
time equals the looked-up profile's mean travel time multiplied by
`hourly_factor[h]` when the hour `h` of the trip's last departure time is a
key of the hourly factor map (left unchanged when it is not), and then
multiplied by `daily_factor[d]` when the weekday `d` of that departure time
is a key of the daily factor map (left unchanged when it is not). -/
theorem claim_C2 (sq : ℚ → ℚ) (df : List StopVisit) (tid stop : String)
    (p : Prediction) (last : StopVisit)
    (hok : estimate_arrival_time sq df tid stop = .ok p)
    (hl : (tripRows df tid).getLast? = some last) :
    ∃ m, (profileFor sq df last.direction stop).mean_travel_time = some m ∧
      p.predicted_travel_time =
        m * (((profileFor sq df last.direction stop).hourly_factors.lookup
              (hourOf last.departure_time)).getD 1)
          * (((profileFor sq df last.direction stop).daily_factors.lookup
              (dayOfWeek last.departure_time)).getD 1) := by
  obtain ⟨last0, m, hl0, hm, hpos, hp⟩ := est_ok_inv hok
  rw [hl0] at hl
  injection hl with hlast
  subst hlast
  refine ⟨m, hm, ?_⟩
  rw [hp]
  exact applyFactors_eq_getD _ _ _

/-- Witness for C2: the concrete prediction of `dfC1` for trip T1 to stop
B, with the profile mean 290. -/
theorem claim_C2_witness :
    (profileFor id dfC1 vB1.direction "B").mean_travel_time = some 290 ∧
      predC1.predicted_travel_time =
        290 * (((profileFor id dfC1 vB1.direction "B").hourly_factors.lookup
              (hourOf vB1.departure_time)).getD 1)
          * (((profileFor id dfC1 vB1.direction "B").daily_factors.lookup
              (dayOfWeek vB1.departure_time)).getD 1) := by
  obtain ⟨m, hm, hp⟩ := claim_C2 id dfC1 "T1" "B" predC1 vB1 ev_est_C1 (by decide)
  have hm2 : (profileFor id dfC1 vB1.direction "B").mean_travel_time = some 290 := by
    rw [show vB1.direction = "N" from rfl, ev_profile_C1]
  rw [hm2] at hm
  injection hm with hm3
  subst hm3
  exact ⟨hm2, hp⟩

/-- C7 (confirmed): for every successful prediction the confidence interval
is `1.96` times the profile's standard deviation when that standard
deviation is defined, and exactly `0.2` times the factor-adjusted predicted
travel time otherwise. -/
theorem claim_C7 (sq : ℚ → ℚ) (df : List StopVisit) (tid stop : String)
    (p : Prediction) (last : StopVisit)
    (hok : estimate_arrival_time sq df tid stop = .ok p)
    (hl : (tripRows df tid).getLast? = some last) :
    (∀ s, (profileFor sq df last.direction stop).std_travel_time = some s →
      p.confidence_interval = (1.96 : ℚ) * s)
    ∧ ((profileFor sq df last.direction stop).std_travel_time = none →
      p.confidence_interval = (0.2 : ℚ) * p.predicted_travel_time) := by
  obtain ⟨last0, m, hl0, hm, hpos, hp⟩ := est_ok_inv hok
  rw [hl0] at hl
  injection hl with hlast
  subst hlast
  subst hp
  constructor
  · intro s hs
    show confidenceOf _ _ = _
    rw [confidenceOf, hs]
  · intro hs
    show confidenceOf _ _ = _
    rw [confidenceOf, hs]
    exact mul_comm _ _

/-- Witness for C7: the `dfC1` profile has an undefined standard deviation
(single sample), and the concrete confidence interval 58 is exactly 20% of
the predicted travel time 290. -/
theorem claim_C7_witness :
    predC1.confidence_interval = (0.2 : ℚ) * predC1.predicted_travel_time := by
  apply (claim_C7 id dfC1 "T1" "B" predC1 vB1 ev_est_C1 (by decide)).2
  rw [show vB1.direction = "N" from rfl, ev_profile_C1]

/-- C8 (confirmed): whenever the confidence interval of a returned
prediction is nonnegative, the three output timestamps are ordered as
`lower_bound ≤ predicted_arrival ≤ upper_bound`. -/
theorem claim_C8 (sq : ℚ → ℚ) (df : List StopVisit) (tid stop : String)
    (p : Prediction)
    (hok : estimate_arrival_time sq df tid stop = .ok p)
    (hci : 0 ≤ p.confidence_interval) :
    p.lower_bound ≤ p.predicted_arrival ∧ p.predicted_arrival ≤ p.upper_bound := by
  obtain ⟨last0, m, hl0, hm, hpos, hp⟩ := est_ok_inv hok
  subst hp
  have hci2 : 0 ≤ confidenceOf (profileFor sq df last0.direction stop)
      (applyFactors (profileFor sq df last0.direction stop) last0.departure_time m) := hci
  constructor
  · exact add_le_add_left (truncQ_mono (sub_le_self _ hci2)) _
  · exact add_le_add_left (truncQ_mono (le_add_of_nonneg_right hci2)) _

/-- Witness for C8 at the concrete prediction of `dfC1`. -/
theorem claim_C8_witness :
    predC1.lower_bound ≤ predC1.predicted_arrival ∧
      predC1.predicted_arrival ≤ predC1.upper_bound :=
  claim_C8 id dfC1 "T1" "B" predC1 ev_est_C1 (by norm_num [predC1])

/-- C9 (confirmed): each output timestamp adds to the reference departure
time the fractional second count truncated toward zero (floor for
nonnegative, ceiling for negative), with no clamping of the lower bound:
`predicted_arrival = current + trunc(base)`,
`lower_bound = current + trunc(base - ci)`,
`upper_bound = current + trunc(base + ci)`. -/
theorem claim_C9 (sq : ℚ → ℚ) (df : List StopVisit) (tid stop : String)
    (p : Prediction) (last : StopVisit)
    (hok : estimate_arrival_time sq df tid stop = .ok p)
    (hl : (tripRows df tid).getLast? = some last) :
    p.predicted_arrival = last.departure_time +
      (if 0 ≤ p.predicted_travel_time then ⌊p.predicted_travel_time⌋
       else ⌈p.predicted_travel_time⌉)
    ∧ p.lower_bound = last.departure_time +
      (if 0 ≤ p.predicted_travel_time - p.confidence_interval
       then ⌊p.predicted_travel_time - p.confidence_interval⌋
       else ⌈p.predicted_travel_time - p.confidence_interval⌉)
    ∧ p.upper_bound = last.departure_time +
      (if 0 ≤ p.predicted_travel_time + p.confidence_interval
       then ⌊p.predicted_travel_time + p.confidence_interval⌋
       else ⌈p.predicted_travel_time + p.confidence_interval⌉) := by
  obtain ⟨last0, m, hl0, hm, hpos, hp⟩ := est_ok_inv hok
  rw [hl0] at hl
  injection hl with hlast
  subst hlast
  subst hp
  exact ⟨rfl, rfl, rfl⟩

/-- Witness for C9 at the concrete prediction of `dfC1`. -/
theorem claim_C9_witness :
    predC1.predicted_arrival = vB1.departure_time +
      (if 0 ≤ predC1.predicted_travel_time then ⌊predC1.predicted_travel_time⌋
       else ⌈predC1.predicted_travel_time⌉)
    ∧ predC1.lower_bound = vB1.departure_time +
      (if 0 ≤ predC1.predicted_travel_time - predC1.confidence_interval
       then ⌊predC1.predicted_travel_time - predC1.confidence_interval⌋
       else ⌈predC1.predicted_travel_time - predC1.confidence_interval⌉)
    ∧ predC1.upper_bound = vB1.departure_time +
      (if 0 ≤ predC1.predicted_travel_time + predC1.confidence_interval
       then ⌊predC1.predicted_travel_time + predC1.confidence_interval⌋
       else ⌈predC1.predicted_travel_time + predC1.confidence_interval⌉) :=
  claim_C9 id dfC1 "T1" "B" predC1 vB1 ev_est_C1 (by decide)

/-- Introduction rule for a `NoHistoricalData` failure. -/
theorem est_nohist_intro {sq : ℚ → ℚ} {df : List StopVisit} {tid stop : String}
    {last : StopVisit}
    (h2 : stop ∈ df.map (fun v => v.bus_stop))
    (hl : (tripRows df tid).getLast? = some last)
    (h3 : (last.direction, stop) ∉ profileKeys df) :
    estimate_arrival_time sq df tid stop = .error .NoHistoricalData := by
  have h1 := mem_trip_of_getLast hl
  simp [estimate_arrival_time, h1, h2, hl, h3]

/-- C3 (confirmed): on a trip's chronologically ordered visit list, every
visit except the last is paired with its immediate successor and receives
travel time `successor.arrival_time - this.departure_time` in seconds; the
last visit of the trip receives no travel time (so a single-visit trip
contributes no defined travel time at all), and a row carrying an absent
travel time never changes any statistic of a profile that has data. -/
theorem claim_C3 :
    (∀ (vs : List StopVisit) (h : vs ≠ []),
      assignTravelTimes vs =
        (vs.zip vs.tail).map
          (fun p => ⟨p.1, some ((p.2.arrival_time - p.1.departure_time : ℤ) : ℚ)⟩)
        ++ [⟨vs.getLast h, none⟩])
    ∧ (∀ v : StopVisit,
      (assignTravelTimes [v]).filterMap (fun r => r.travel_time) = [])
    ∧ (∀ (sq : ℚ → ℚ) (rows : List SegRow) (v : StopVisit),
      2 ≤ rows.length → (∃ r ∈ rows, r.travel_time ≠ none) →
      calculate_estimates sq (rows ++ [⟨v, none⟩]) = calculate_estimates sq rows) :=
  ⟨assign_eq_zip, fun _ => rfl, calc_append_none⟩

/-- Witness for C3: trip T1 of `dfC1` (segment `290 = 1300 - 1010` is from
the successor pairing at stop A: `300 - 10 = 290`), the single-visit trip
T3, and the `("N", "B")` group of `dfNeg` extended by an undefined row. -/
theorem claim_C3_witness :
    assignTravelTimes [vA1, vB1] = [⟨vA1, some 290⟩, ⟨vB1, none⟩]
    ∧ (assignTravelTimes [vD3]).filterMap (fun r => r.travel_time) = []
    ∧ calculate_estimates id (partitionRows dfNeg "N" "B" ++ [⟨vD3, none⟩]) =
        calculate_estimates id (partitionRows dfNeg "N" "B") := by
  refine ⟨?_, claim_C3.2.1 vD3,
    claim_C3.2.2 id (partitionRows dfNeg "N" "B") vD3 (by decide) (by decide)⟩
  rw [claim_C3.1 [vA1, vB1] (by decide)]
  decide

/-- C10 (confirmed): the profile table has a key exactly for the
`(direction, bus_stop)` pairs that occur together in at least one visit
(final visits of trips included, even when the profile is empty), so a
`NoHistoricalData` failure means the last visit's direction and the target
stop never co-occur in any single visit. -/
theorem claim_C10 (df : List StopVisit) (d s : String) :
    ((d, s) ∈ profileKeys df ↔ ∃ v ∈ df, v.direction = d ∧ v.bus_stop = s)
    ∧ (∀ (sq : ℚ → ℚ) (tid : String),
      estimate_arrival_time sq df tid s = .error .NoHistoricalData →
      ∀ last, (tripRows df tid).getLast? = some last →
        ¬ ∃ v ∈ df, v.direction = last.direction ∧ v.bus_stop = s) := by
  refine ⟨mem_profileKeys_iff df d s, ?_⟩
  intro sq tid herr last hl
  obtain ⟨last0, hl0, hkey⟩ := est_nohist_inv herr
  rw [hl0] at hl
  injection hl with hlast
  subst hlast
  intro hex
  exact hkey ((mem_profileKeys_iff df last0.direction s).mpr hex)

/-- Witness for C10: in `dfC1` the key ("N", "B") is present because visit
`vB1` has direction "N" and stop "B"; querying the single-visit trip T3
(direction "S") for stop B fails with `NoHistoricalData`, and indeed "S"
and "B" never co-occur in a visit of `dfC1`. -/
theorem claim_C10_witness :
    ("N", "B") ∈ profileKeys dfC1 ∧
      ¬ ∃ v ∈ dfC1, v.direction = vD3.direction ∧ v.bus_stop = "B" := by
  constructor
  · exact (claim_C10 dfC1 "N" "B").1.mpr ⟨vB1, by decide, rfl, rfl⟩
  · exact (claim_C10 dfC1 "N" "B").2 id "T3"
      (@est_nohist_intro id dfC1 "T3" "B" vD3 (by decide) (by decide) (by decide))
      vD3 (by decide)

/-- C4 (confirmed): the prediction query fails with `UnknownTripId` exactly
when the trip id occurs in no visit; with `UnknownStop` exactly when the
trip exists but the target stop occurs in no visit of the whole dataset;
with `NoHistoricalData` exactly when the pair (last visit's direction,
target stop) is not a profile key; with `InsufficientData` exactly when the
key exists but the profile mean is undefined; with `InvalidPrediction`
exactly when the factor-adjusted base is not positive (a NaN base cannot
arise in the rational embedding); and otherwise it returns a prediction. -/
theorem claim_C4 (sq : ℚ → ℚ) (df : List StopVisit) (tid stop : String) :
    (estimate_arrival_time sq df tid stop = .error .UnknownTripId ↔
      tid ∉ df.map (fun v => v.trip_id))
    ∧ (estimate_arrival_time sq df tid stop = .error .UnknownStop ↔
      tid ∈ df.map (fun v => v.trip_id) ∧ stop ∉ df.map (fun v => v.bus_stop))
    ∧ ∀ last, (tripRows df tid).getLast? = some last →
      ((estimate_arrival_time sq df tid stop = .error .NoHistoricalData ↔
        stop ∈ df.map (fun v => v.bus_stop) ∧ (last.direction, stop) ∉ profileKeys df)
      ∧ (estimate_arrival_time sq df tid stop = .error .InsufficientData ↔
        stop ∈ df.map (fun v => v.bus_stop) ∧ (last.direction, stop) ∈ profileKeys df ∧
        (profileFor sq df last.direction stop).mean_travel_time = none)
      ∧ (estimate_arrival_time sq df tid stop = .error .InvalidPrediction ↔
        stop ∈ df.map (fun v => v.bus_stop) ∧ (last.direction, stop) ∈ profileKeys df ∧
        ∃ m, (profileFor sq df last.direction stop).mean_travel_time = some m ∧
          applyFactors (profileFor sq df last.direction stop) last.departure_time m ≤ 0)
      ∧ ((∃ p, estimate_arrival_time sq df tid stop = .ok p) ↔
        stop ∈ df.map (fun v => v.bus_stop) ∧ (last.direction, stop) ∈ profileKeys df ∧
        ∃ m, (profileFor sq df last.direction stop).mean_travel_time = some m ∧
          0 < applyFactors (profileFor sq df last.direction stop) last.departure_time m)) := by
  rcases est_chara sq df tid stop with ⟨h1, he⟩ | ⟨h1, h2, he⟩ |
    ⟨last0, hl0, h2, ⟨h3, he⟩ | ⟨h3, hm, he⟩ | ⟨m, h3, hm, hle, he⟩ | ⟨m, h3, hm, hpos, he⟩⟩
  · refine ⟨iff_of_true he h1, iff_of_false (by simp [he]) (fun hcon => h1 hcon.1), ?_⟩
    intro last hl
    exact absurd (mem_trip_of_getLast hl) h1
  · refine ⟨iff_of_false (by simp [he]) (fun hn => hn h1), iff_of_true he ⟨h1, h2⟩, ?_⟩
    intro last hl
    refine ⟨iff_of_false (by simp [he]) (fun hcon => h2 hcon.1),
      iff_of_false (by simp [he]) (fun hcon => h2 hcon.1),
      iff_of_false (by simp [he]) (fun hcon => h2 hcon.1),
      iff_of_false ?_ (fun hcon => h2 hcon.1)⟩
    rintro ⟨p, hp⟩
    rw [he] at hp
    simp at hp
  · have h1 := mem_trip_of_getLast hl0
    refine ⟨iff_of_false (by simp [he]) (fun hn => hn h1),
      iff_of_false (by simp [he]) (fun hcon => hcon.2 h2), ?_⟩
    intro last hl
    rw [hl0] at hl
    injection hl with hlast
    subst hlast
    refine ⟨iff_of_true he ⟨h2, h3⟩,
      iff_of_false (by simp [he]) (fun hcon => h3 hcon.2.1),
      iff_of_false (by simp [he]) (fun hcon => h3 hcon.2.1),
      iff_of_false ?_ (fun hcon => h3 hcon.2.1)⟩
    rintro ⟨p, hp⟩
    rw [he] at hp
    simp at hp
  · have h1 := mem_trip_of_getLast hl0
    refine ⟨iff_of_false (by simp [he]) (fun hn => hn h1),
      iff_of_false (by simp [he]) (fun hcon => hcon.2 h2), ?_⟩
    intro last hl
    rw [hl0] at hl
    injection hl with hlast
    subst hlast
    refine ⟨iff_of_false (by simp [he]) (fun hcon => hcon.2 h3),
      iff_of_true he ⟨h2, h3, hm⟩, iff_of_false (by simp [he]) ?_, iff_of_false ?_ ?_⟩
    · rintro ⟨_, _, m2, hm2, _⟩
      rw [hm] at hm2
      cases hm2
    · rintro ⟨p, hp⟩
      rw [he] at hp
      simp at hp
    · rintro ⟨_, _, m2, hm2, _⟩
      rw [hm] at hm2
      cases hm2
  · have h1 := mem_trip_of_getLast hl0
    refine ⟨iff_of_false (by simp [he]) (fun hn => hn h1),
      iff_of_false (by simp [he]) (fun hcon => hcon.2 h2), ?_⟩
    intro last hl
    rw [hl0] at hl
    injection hl with hlast
    subst hlast
    refine ⟨iff_of_false (by simp [he]) (fun hcon => hcon.2 h3),
      iff_of_false (by simp [he]) ?_,
      iff_of_true he ⟨h2, h3, m, hm, hle⟩, iff_of_false ?_ ?_⟩
    · rintro ⟨_, _, hm2⟩
      rw [hm] at hm2
      cases hm2
    · rintro ⟨p, hp⟩
      rw [he] at hp
      simp at hp
    · rintro ⟨_, _, m2, hm2, hpos2⟩
      rw [hm] at hm2
      injection hm2 with hm3
      subst hm3
      exact absurd hpos2 (not_lt.mpr hle)
  · have h1 := mem_trip_of_getLast hl0
    refine ⟨iff_of_false (by simp [he]) (fun hn => hn h1),
      iff_of_false (by simp [he]) (fun hcon => hcon.2 h2), ?_⟩
    intro last hl
    rw [hl0] at hl
    injection hl with hlast
    subst hlast
    refine ⟨iff_of_false (by simp [he]) (fun hcon => hcon.2 h3),
      iff_of_false (by simp [he]) ?_, iff_of_false (by simp [he]) ?_,
      iff_of_true ⟨_, he⟩ ⟨h2, h3, m, hm, hpos⟩⟩
    · rintro ⟨_, _, hm2⟩
      rw [hm] at hm2
      cases hm2
    · rintro ⟨_, _, m2, hm2, hle2⟩
      rw [hm] at hm2
      injection hm2 with hm3
      subst hm3
      exact absurd hpos (not_lt.mpr hle2)

/-- Witness for C4: in `dfC1`, querying the single-visit trip T3 (direction
"S") for stop B is classified as `NoHistoricalData`. -/
theorem claim_C4_witness :
    estimate_arrival_time id dfC1 "T3" "B" = .error .NoHistoricalData :=
  (((claim_C4 id dfC1 "T3" "B").2.2 vD3 (by decide)).1).mpr ⟨by decide, by decide⟩

/-- Counterexample for C1 as stated: in `dfC1` the `("N", "B")` group has
exactly one defined travel time (fewer than 2), yet its profile is not
empty (its mean is defined) and predicting trip T1 to stop B succeeds with
a concrete prediction instead of failing with `InsufficientData`.  The
source guard tests the total row count of the group, not the count of
defined travel times. -/
theorem claim_C1_counterexample :
    ((partitionRows dfC1 "N" "B").filterMap (fun r => r.travel_time)).length = 1
    ∧ profileFor id dfC1 "N" "B" ≠ emptyProfile
    ∧ estimate_arrival_time id dfC1 "T1" "B" ≠ .error .InsufficientData
    ∧ estimate_arrival_time id dfC1 "T1" "B" = .ok predC1 := by
  refine ⟨by decide, ?_, ?_, ev_est_C1⟩
  · rw [ev_profile_C1]
    simp [emptyProfile]
  · rw [ev_est_C1]
    simp

/-- C1 amended: a group's profile is empty exactly when the group has fewer
than 2 rows in total (defined travel time or not) or no defined travel time
at all; equivalently its mean is undefined exactly then (so a group with at
least 2 rows of which exactly one has a defined travel time gets a defined
mean, and prediction against it can succeed).  `predict` fails with
`InsufficientData` whenever the looked-up key exists but the group mean is
undefined. -/
theorem claim_C1_amended (sq : ℚ → ℚ) (rows : List SegRow) :
    (calculate_estimates sq rows = emptyProfile ↔
      (rows.length < 2 ∨ ∀ r ∈ rows, r.travel_time = none))
    ∧ ((calculate_estimates sq rows).mean_travel_time = none ↔
      (rows.length < 2 ∨ ∀ r ∈ rows, r.travel_time = none))
    ∧ ∀ (df : List StopVisit) (tid stop : String) (last : StopVisit),
      stop ∈ df.map (fun v => v.bus_stop) →
      (tripRows df tid).getLast? = some last →
      (last.direction, stop) ∈ profileKeys df →
      (profileFor sq df last.direction stop).mean_travel_time = none →
      estimate_arrival_time sq df tid stop = .error .InsufficientData := by
  refine ⟨calc_empty_iff sq rows, mean_none_iff sq rows, ?_⟩
  intro df tid stop last h2 hl h3 hm
  have h1 := mem_trip_of_getLast hl
  simp [estimate_arrival_time, h1, h2, hl, h3, hm]

/-- Dataset with a single two-stop trip: the `("N", "B")` group has one row
with an undefined travel time. -/
def dfSmall : List StopVisit := [vA1, vB1]

/-- Witness for the amended C1: in `dfSmall` the `("N", "B")` group has one
row, its profile is empty, and the prediction for trip T1 to stop B fails
with `InsufficientData`. -/
theorem claim_C1_witness :
    calculate_estimates id (partitionRows dfSmall "N" "B") = emptyProfile
    ∧ estimate_arrival_time id dfSmall "T1" "B" = .error .InsufficientData := by
  constructor
  · exact (claim_C1_amended id (partitionRows dfSmall "N" "B")).1.mpr (by decide)
  · exact (claim_C1_amended id (partitionRows dfSmall "N" "B")).2.2 dfSmall "T1" "B"
      vB1 (by decide) (by decide) (by decide) (by decide)

/-- Rows with every negative travel time replaced by a missing value: the
behavior C5 claims the statistics follow. -/
def dropNegRows (rows : List SegRow) : List SegRow :=
  rows.map (fun r =>
    match r.travel_time with
    | some t => if t < 0 then ⟨r.visit, none⟩ else r
    | none => r)

/-- Counterexample for C5 as stated: in the `("N", "B")` group of `dfNeg`
the computed mean is 0 because the negative travel time -300 participates;
had negative values been excluded like missing ones, the mean would have
been 300.  The source drops only NaN values, never negative ones. -/
theorem claim_C5_counterexample :
    (profileFor id dfNeg "N" "B").mean_travel_time = some 0
    ∧ (calculate_estimates id
        (dropNegRows (partitionRows dfNeg "N" "B"))).mean_travel_time = some 300
    ∧ some (0 : ℚ) ≠ some (300 : ℚ) := by
  refine ⟨?_, ?_, by decide⟩
  · rw [ev_profile_Neg]
  · rw [show dropNegRows (partitionRows dfNeg "N" "B") =
        [⟨nB1, some 300⟩, ⟨nB2, none⟩] from by decide,
      calculate_estimates, if_neg (by decide)]
    norm_num [qmean, List.filterMap_cons]

/-- C5 amended: only missing travel-time values are excluded from the
statistics; negative defined values participate exactly like any other
defined value — mean and standard deviation are computed over all defined
travel times of the group, and every defined value, negative or not, is
among them. -/
theorem claim_C5_amended (sq : ℚ → ℚ) (rows : List SegRow)
    (hg : ¬(rows.length < 2 ∨ ∀ r ∈ rows, r.travel_time = none)) :
    (calculate_estimates sq rows).mean_travel_time =
      some (qmean (rows.filterMap (fun r => r.travel_time)))
    ∧ (calculate_estimates sq rows).std_travel_time =
      (sampleVar (rows.filterMap (fun r => r.travel_time))).map sq
    ∧ ∀ (v : StopVisit) (t : ℚ), SegRow.mk v (some t) ∈ rows →
        t ∈ rows.filterMap (fun r => r.travel_time) := by
  refine ⟨?_, ?_, ?_⟩
  · rw [calculate_estimates, if_neg hg]
    rw [show ((rows.filterMap
        (fun r => r.travel_time.map (fun t => (r.visit, t)))).map (fun r => r.2)) =
        rows.filterMap (fun r => r.travel_time) from pairs_snd rows]
  · rw [calculate_estimates, if_neg hg]
    rw [show ((rows.filterMap
        (fun r => r.travel_time.map (fun t => (r.visit, t)))).map (fun r => r.2)) =
        rows.filterMap (fun r => r.travel_time) from pairs_snd rows]
  · intro v t hmem
    exact List.mem_filterMap.mpr ⟨⟨v, some t⟩, hmem, rfl⟩

/-- Witness for the amended C5 at the `("N", "B")` group of `dfNeg`: the
mean is computed over all defined travel times, and the negative value -300
is one of them. -/
theorem claim_C5_witness :
    (calculate_estimates id (partitionRows dfNeg "N" "B")).mean_travel_time =
      some (qmean ((partitionRows dfNeg "N" "B").filterMap (fun r => r.travel_time)))
    ∧ (-300 : ℚ) ∈ (partitionRows dfNeg "N" "B").filterMap (fun r => r.travel_time) := by
  have h := claim_C5_amended id (partitionRows dfNeg "N" "B") (by decide)
  exact ⟨h.1, h.2.2 nB2 (-300) (by decide)⟩

/-- Counterexample for C6 as stated: the hourly factor map of the
`("N", "B")` group of `dfNeg` is non-empty, yet the arithmetic mean of its
factor values is 0, not 1: the bucket means 300 and -300 average to 0, so
the normalizing division is a division by zero. -/
theorem claim_C6_counterexample :
    (profileFor id dfNeg "N" "B").hourly_factors ≠ []
    ∧ qmean ((profileFor id dfNeg "N" "B").hourly_factors.map (fun q => q.2)) ≠ 1 := by
  constructor
  · rw [ev_profile_Neg]
    simp
  · rw [ev_profile_Neg]
    norm_num [qmean]

/-- C6 amended: each factor equals its bucket's mean travel time divided by
the unweighted arithmetic mean of all present buckets' means, computed in
two passes; whenever that mean of bucket means is nonzero (in particular
whenever all travel times are positive), the arithmetic mean of the factor
values is exactly 1.  When it is zero — possible only with negative travel
times — the normalization divides by zero and the consequence fails. -/
theorem claim_C6_amended (key : StopVisit → ℤ) (data : List (StopVisit × ℚ))
    (hM : qmean ((bucketKeys key data).map (bucketMean key data)) ≠ 0) :
    (∀ k f, (k, f) ∈ factorMap key data →
      f = bucketMean key data k /
        qmean ((bucketKeys key data).map (bucketMean key data)))
    ∧ qmean ((factorMap key data).map (fun q => q.2)) = 1 := by
  constructor
  · intro k f hmem
    rw [factorMap] at hmem
    obtain ⟨k2, hk2, heq⟩ := List.mem_map.mp hmem
    obtain ⟨hk, hf⟩ := Prod.mk.injEq .. ▸ heq
    subst hk
    exact hf.symm
  · rw [factorMap, List.map_map]
    rw [show ((fun q : ℤ × ℚ => q.2) ∘
        (fun k => (k, bucketMean key data k /
          qmean ((bucketKeys key data).map (bucketMean key data))))) =
        (fun k => bucketMean key data k /
          qmean ((bucketKeys key data).map (bucketMean key data))) from rfl]
    rw [qmean_map_divQ, div_self hM]

/-- Witness for the amended C6 on the single defined sample of the
`("N", "B")` group of `dfC1` (bucket mean 290, overall mean 290, factor 1). -/
theorem claim_C6_witness :
    qmean ((factorMap (fun v => hourOf v.arrival_time) [(vB2, (290:ℚ))]).map
      (fun q => q.2)) = 1 := by
  refine (claim_C6_amended (fun v => hourOf v.arrival_time) [(vB2, (290:ℚ))] ?_).2
  rw [show bucketKeys (fun v => hourOf v.arrival_time) [(vB2, (290:ℚ))] = [0]
      from by decide]
  rw [show List.map (bucketMean (fun v => hourOf v.arrival_time) [(vB2, (290:ℚ))]) [0] =
      [bucketMean (fun v => hourOf v.arrival_time) [(vB2, (290:ℚ))] 0] from rfl]
  rw [bucketMean, show List.filter
      (fun r => decide ((fun v => hourOf v.arrival_time) r.1 = 0)) [(vB2, (290:ℚ))] =
      [(vB2, (290:ℚ))] from by decide]
  norm_num [qmean]

end Transit
